import Mathlib

/-!
Shallow embedding of `stage-3-generate-next-dataset/synthetic_data_generation.py`.

The script has two functions:

* `generate_dataset(alpha, beta, sigma, n)` — draws `n` uniform samples `X`,
  `n` standard-normal samples `epsilon`, computes `y = alpha + beta*X + sigma*epsilon`,
  tags every row with today's date, builds a three-column table and keeps only
  the rows with `y >= 0` (`dataset.query('y >= 0')`).
* `persist_dataset(dataset, aws_bucket)` — writes the table to a CSV file named
  after the current date (`header=True`, `index=False`), then tries to upload it
  to S3 under key `datasets/<filename>`, catching exactly `ClientError` and
  downgrading it to a printed warning.

Modelling choices:

* Python floats become `ℚ` (exact arithmetic over the same expressions).
* The process-wide random source becomes two explicit draw functions
  `Xdraw edraw : ℕ → ℚ` giving the i-th uniform and normal sample.
* `n` is an `ℤ` as in Python; `np.full` / `np.random.uniform` /
  `np.random.normal` raise `ValueError: negative dimensions are not allowed`
  for negative sizes, modelled by `Except NumpyError`.
* `persist_dataset`'s effects (file written, lines printed, upload request
  issued, exception escaping) are recorded in a `PersistOutcome`; the S3
  client's behaviour is a parameter `upload : UploadRequest → Except S3Error Unit`,
  where `S3Error.clientError` is botocore's `ClientError` and
  `S3Error.otherError` is any other exception raised inside the `try` block.
-/

/-- Error raised by numpy array constructors on a negative size. -/
inductive NumpyError where
  | negativeDimensions
deriving DecidableEq, Repr

/-- `np.full(n, v)`: an array of `n` copies of `v`; raises for `n < 0`. -/
def np_full (n : ℤ) (v : α) : Except NumpyError (List α) :=
  if n < 0 then Except.error NumpyError.negativeDimensions
  else Except.ok (List.replicate n.toNat v)

/-- `np.random.uniform(lo, hi, n)`: `n` draws from the process random source,
modelled by an explicit draw function; raises for `n < 0`.  The bounds `lo`,
`hi` constrain the draws (`lo ≤ draw i < hi`) but are not used computationally;
claims needing them take the constraint as a hypothesis. -/
def np_uniform (lo hi : ℚ) (n : ℤ) (draw : ℕ → ℚ) : Except NumpyError (List ℚ) :=
  if n < 0 then Except.error NumpyError.negativeDimensions
  else Except.ok ((List.range n.toNat).map draw)

/-- `np.random.normal(mu, sd, n)`: `n` draws from the process random source,
modelled by an explicit draw function; raises for `n < 0`. -/
def np_normal (mu sd : ℚ) (n : ℤ) (draw : ℕ → ℚ) : Except NumpyError (List ℚ) :=
  if n < 0 then Except.error NumpyError.negativeDimensions
  else Except.ok ((List.range n.toNat).map draw)

/-- `pd.DataFrame({'date': …, 'y': …, 'X': …})`: a table with the three columns
of the script, kept as parallel lists. -/
structure DataFrame where
  date : List String
  y : List ℚ
  X : List ℚ
deriving DecidableEq, Repr

/-- The rows of the table, in order: `(date, y, X)` triples. -/
def DataFrame.rows (df : DataFrame) : List (String × ℚ × ℚ) :=
  List.zip df.date (List.zip df.y df.X)

/-- Rebuild a `DataFrame` from a list of rows. -/
def DataFrame.ofRows (l : List (String × ℚ × ℚ)) : DataFrame :=
  ⟨l.map Prod.fst, l.map (fun r => r.2.1), l.map (fun r => r.2.2)⟩

/-- `dataset.query('y >= 0')`: keep exactly the rows whose `y` is nonnegative,
all columns staying aligned. -/
def DataFrame.query_y_nonneg (df : DataFrame) : DataFrame :=
  DataFrame.ofRows (df.rows.filter (fun r => decide (0 ≤ r.2.1)))

/-- `generate_dataset(alpha, beta, sigma, n)` from the script, as a function of
its parameters, today's date string, and the two random draw streams. -/
def generate_dataset (alpha beta sigma : ℚ) (n : ℤ) (today : String)
    (Xdraw edraw : ℕ → ℚ) : Except NumpyError DataFrame := do
  let datestr ← np_full n today
  let X ← np_uniform 0 100 n Xdraw
  let epsilon ← np_normal 0 1 n edraw
  let y := List.zipWith (fun x e => alpha + beta * x + sigma * e) X epsilon
  let dataset : DataFrame := ⟨datestr, y, X⟩
  return dataset.query_y_nonneg

/-- Exceptions that can surface inside `persist_dataset`'s `try` block:
botocore's `ClientError` (auth failure, missing bucket, network failure
surfaced by the storage client) versus any other exception class. -/
inductive S3Error where
  | clientError (msg : String)
  | otherError (msg : String)
deriving DecidableEq, Repr

/-- The arguments of the `s3_client.upload_file(Filename, Bucket, Key)` call. -/
structure UploadRequest where
  localFile : String
  bucket : String
  key : String
deriving DecidableEq, Repr

/-- Render one CSV data row, comma-delimited, no index column:
`date,y,X` in that order, matching the column order of the frame. -/
def csvRow (r : String × ℚ × ℚ) : String :=
  r.1 ++ "," ++ toString r.2.1 ++ "," ++ toString r.2.2

/-- `dataset.to_csv(filename, header=True, index=False)`: the lines of the
file — a header line, then one line per row in row order. -/
def DataFrame.to_csv (df : DataFrame) : List String :=
  "date,y,X" :: df.rows.map csvRow

/-- The observable effects of one `persist_dataset` run. -/
structure PersistOutcome where
  /-- files on local disk after the run: `(filename, lines)` pairs. -/
  files : List (String × List String)
  /-- lines printed to stdout, in order. -/
  printed : List String
  /-- the upload request handed to the S3 client. -/
  uploadAttempt : Option UploadRequest
  /-- the exception escaping the function, `none` if it returned normally. -/
  raised : Option S3Error
deriving DecidableEq, Repr

/-- `dataset_filename = f'regression-dataset-{data_date}.csv'`. -/
def dataset_filename (data_date : String) : String :=
  "regression-dataset-" ++ data_date ++ ".csv"

/-- The upload request `persist_dataset` issues:
`upload_file(dataset_filename, aws_bucket, f'datasets/{dataset_filename}')`. -/
def uploadRequestFor (data_date aws_bucket : String) : UploadRequest :=
  ⟨dataset_filename data_date, aws_bucket,
   "datasets/" ++ dataset_filename data_date⟩

/-- `persist_dataset(dataset, aws_bucket)` from the script.  `data_date` is the
string form of `date.today()` and `upload` is the behaviour of
`s3_client.upload_file` (with client construction folded in): `Except.ok` on
success, `Except.error` carrying the raised exception otherwise.  Only
`ClientError` is caught (`except ClientError:`); it is downgraded to a printed
warning and the function returns normally. -/
def persist_dataset (dataset : DataFrame) (aws_bucket : String)
    (data_date : String) (upload : UploadRequest → Except S3Error Unit) :
    PersistOutcome :=
  let fname := dataset_filename data_date
  let files := [(fname, dataset.to_csv)]
  let req := uploadRequestFor data_date aws_bucket
  match upload req with
  | Except.ok _ =>
      ⟨files,
       ["uploaded " ++ fname ++ " to s3://" ++ aws_bucket ++ "/datasets/"],
       some req, none⟩
  | Except.error (S3Error.clientError _) =>
      ⟨files, ["could not upload dataset to S3 - check AWS credentials"],
       some req, none⟩
  | Except.error (S3Error.otherError m) =>
      ⟨files, [], some req, some (S3Error.otherError m)⟩

/-- The elementwise `y` of row index `i`. -/
def yAt (alpha beta sigma : ℚ) (Xdraw edraw : ℕ → ℚ) (i : ℕ) : ℚ :=
  alpha + beta * Xdraw i + sigma * edraw i

-- Helper lemmas about the generated rows.

theorem map_range_const (m : ℕ) (t : String) :
    (List.range m).map (fun _ => t) = List.replicate m t := by
  induction m with
  | zero => rfl
  | succ k ih => rw [List.range_succ, List.map_append, ih, List.map_singleton,
      List.replicate_succ' k t]

theorem zip_rows_of_maps (t : String) (Xdraw edraw : ℕ → ℚ) (g : ℚ → ℚ → ℚ)
    (l : List ℕ) :
    List.zip (l.map fun _ => t)
      (List.zip (List.zipWith g (l.map Xdraw) (l.map edraw)) (l.map Xdraw))
    = l.map (fun i => (t, g (Xdraw i) (edraw i), Xdraw i)) := by
  induction l with
  | nil => rfl
  | cons a l ih => simp only [List.map_cons, List.zipWith_cons_cons,
      List.zip_cons_cons, ih]

theorem filter_of_map (f : α → β) (p : β → Bool) (l : List α) :
    (l.map f).filter p = (l.filter (fun a => p (f a))).map f := by
  induction l with
  | nil => rfl
  | cons a l ih =>
    simp only [List.map_cons, List.filter_cons]
    cases h : p (f a) <;> simp [ih]

theorem rows_ofRows (l : List (String × ℚ × ℚ)) :
    (DataFrame.ofRows l).rows = l := by
  induction l with
  | nil => rfl
  | cons a l ih =>
    simp only [DataFrame.ofRows, DataFrame.rows, List.map_cons,
      List.zip_cons_cons] at *
    exact congrArg (List.cons _) ih

/-- Characterization: for `n ≥ 0`, `generate_dataset` succeeds and its rows are
exactly the indices `i < n` with `y i ≥ 0`, in order, each carrying today's
date, its `y` value and its `X` draw. -/
theorem generate_dataset_rows (alpha beta sigma : ℚ) (n : ℤ) (today : String)
    (Xdraw edraw : ℕ → ℚ) (h : 0 ≤ n) :
    generate_dataset alpha beta sigma n today Xdraw edraw
      = Except.ok (DataFrame.ofRows
          (((List.range n.toNat).filter
              (fun i => decide (0 ≤ yAt alpha beta sigma Xdraw edraw i))).map
            (fun i => (today, yAt alpha beta sigma Xdraw edraw i, Xdraw i)))) := by
  have hn : ¬ n < 0 := not_lt.mpr h
  simp only [generate_dataset, np_full, np_uniform, np_normal, if_neg hn,
    Except.bind, bind, pure, Except.pure]
  congr 1
  simp only [DataFrame.query_y_nonneg, DataFrame.rows]
  rw [← map_range_const n.toNat today, zip_rows_of_maps, filter_of_map]
  rfl

-- Claim theorems

/-- C1: for every valid input with `n > 0`, `generate_dataset` succeeds and the
returned table has at most `n` rows, every retained row satisfies `y ≥ 0`, and
the three columns `date`, `y`, `X` have equal length. -/
theorem C1_generate_dataset_shape (alpha beta sigma : ℚ) (n : ℤ)
    (today : String) (Xdraw edraw : ℕ → ℚ) (h : 0 < n) :
    ∃ df : DataFrame,
      generate_dataset alpha beta sigma n today Xdraw edraw = Except.ok df ∧
      df.date.length = df.y.length ∧ df.X.length = df.y.length ∧
      df.y.length ≤ n.toNat ∧ ∀ v ∈ df.y, 0 ≤ v := by
  refine ⟨_, generate_dataset_rows alpha beta sigma n today Xdraw edraw h.le,
    ?_, ?_, ?_, ?_⟩
  · simp [DataFrame.ofRows]
  · simp [DataFrame.ofRows]
  · simp only [DataFrame.ofRows, List.length_map]
    calc (((List.range n.toNat).filter _).length)
        ≤ (List.range n.toNat).length := List.length_filter_le _ _
      _ = n.toNat := List.length_range n.toNat
  · intro v hv
    simp only [DataFrame.ofRows, List.map_map, List.mem_map, List.mem_filter,
      Function.comp] at hv
    obtain ⟨i, ⟨_, hi⟩, rfl⟩ := hv
    exact of_decide_eq_true hi

/-- C1 witness: instantiated at `alpha = beta = sigma = 0`, `n = 1`. -/
theorem C1_generate_dataset_shape_witness :
    (0 : ℤ) < 1 ∧
    ∃ df : DataFrame,
      generate_dataset 0 0 0 1 "d" (fun _ => 0) (fun _ => 0) = Except.ok df ∧
      df.date.length = df.y.length ∧ df.X.length = df.y.length ∧
      df.y.length ≤ (1 : ℤ).toNat ∧ ∀ v ∈ df.y, 0 ≤ v :=
  ⟨by decide,
   C1_generate_dataset_shape 0 0 0 1 "d" (fun _ => 0) (fun _ => 0) (by decide)⟩

/-- C3: as a function of its parameters and the draws, `generate_dataset`
computes `y` elementwise as `alpha + beta*X + sigma*epsilon`, attaches today's
date to every row, and keeps exactly the rows with `y ≥ 0` (dropping exactly
those with `y < 0`); every retained row's `y` equals
`alpha + beta*Xdraw i + sigma*edraw i` for that row's draw index `i`. -/
theorem C3_generate_dataset_elementwise (alpha beta sigma : ℚ) (n : ℤ)
    (today : String) (Xdraw edraw : ℕ → ℚ) (h : 0 ≤ n) :
    ∃ df : DataFrame,
      generate_dataset alpha beta sigma n today Xdraw edraw = Except.ok df ∧
      df.rows = ((List.range n.toNat).filter
          (fun i => decide (0 ≤ alpha + beta * Xdraw i + sigma * edraw i))).map
        (fun i => (today, alpha + beta * Xdraw i + sigma * edraw i, Xdraw i)) ∧
      ∀ r ∈ df.rows, r.1 = today ∧
        ∃ i, i < n.toNat ∧ r.2.1 = alpha + beta * Xdraw i + sigma * edraw i ∧
          r.2.2 = Xdraw i := by
  refine ⟨_, generate_dataset_rows alpha beta sigma n today Xdraw edraw h,
    ?_, ?_⟩
  · rw [rows_ofRows]; rfl
  · intro r hr
    rw [rows_ofRows] at hr
    simp only [List.mem_map, List.mem_filter, List.mem_range, yAt] at hr
    obtain ⟨i, ⟨hi, _⟩, rfl⟩ := hr
    exact ⟨rfl, i, hi, rfl, rfl⟩

/-- C3 witness: instantiated at `alpha = beta = sigma = 0`, `n = 2`. -/
theorem C3_generate_dataset_elementwise_witness :
    (0 : ℤ) ≤ 2 ∧
    ∃ df : DataFrame,
      generate_dataset 0 0 0 2 "d" (fun _ => 1) (fun _ => 0) = Except.ok df ∧
      df.rows = ((List.range (2 : ℤ).toNat).filter
          (fun i => decide (0 ≤ (0 : ℚ) + 0 * (fun _ => (1 : ℚ)) i +
            0 * (fun _ => (0 : ℚ)) i))).map
        (fun i => ("d", (0 : ℚ) + 0 * (fun _ => (1 : ℚ)) i +
          0 * (fun _ => (0 : ℚ)) i, (fun _ => (1 : ℚ)) i)) ∧
      ∀ r ∈ df.rows, r.1 = "d" ∧
        ∃ i, i < (2 : ℤ).toNat ∧
          r.2.1 = (0 : ℚ) + 0 * (fun _ => (1 : ℚ)) i +
            0 * (fun _ => (0 : ℚ)) i ∧
          r.2.2 = (fun _ => (1 : ℚ)) i :=
  ⟨by decide,
   C3_generate_dataset_elementwise 0 0 0 2 "d" (fun _ => 1) (fun _ => 0)
     (by decide)⟩

/-- C9: for `n = 0` (excluded by the spec's precondition `n > 0`),
`generate_dataset` succeeds and returns an empty table — zero rows, but all
three columns `date`, `y`, `X` present (and empty). -/
theorem C9_generate_dataset_empty (alpha beta sigma : ℚ) (today : String)
    (Xdraw edraw : ℕ → ℚ) :
    generate_dataset alpha beta sigma 0 today Xdraw edraw =
      Except.ok ⟨[], [], []⟩ := by
  rfl

/-- C7: for malformed input `n < 0`, `generate_dataset` fails fast (numpy
raises `ValueError: negative dimensions are not allowed` at the first array
construction) and no table is produced. -/
theorem C7_generate_dataset_negative_n (alpha beta sigma : ℚ) (n : ℤ)
    (today : String) (Xdraw edraw : ℕ → ℚ) (h : n < 0) :
    generate_dataset alpha beta sigma n today Xdraw edraw =
      Except.error NumpyError.negativeDimensions := by
  simp only [generate_dataset, np_full, if_pos h, Except.bind, bind]

/-- C7 witness: instantiated at `n = -1`. -/
theorem C7_generate_dataset_negative_n_witness :
    (-1 : ℤ) < 0 ∧
    generate_dataset 0 0 0 (-1) "d" (fun _ => 0) (fun _ => 0) =
      Except.error NumpyError.negativeDimensions :=
  ⟨by decide,
   C7_generate_dataset_negative_n 0 0 0 (-1) "d" (fun _ => 0) (fun _ => 0)
     (by decide)⟩

/-- C4: with `alpha=0`, `beta=1`, `sigma=0`, `n=5` and the uniform draws fixed
to `[-1, 0, 1, 2, 3]`, `generate_dataset` yields `y = X` exactly, the row with
`X = -1` is dropped by the filter, and the result has exactly 4 rows with
`y = [0, 1, 2, 3]` in that order (for every noise stream, since `sigma = 0`). -/
theorem C4_generate_dataset_scenario (today : String) (edraw : ℕ → ℚ) :
    ∃ df : DataFrame,
      generate_dataset 0 1 0 5 today
        (fun i => [(-1 : ℚ), 0, 1, 2, 3].getD i 0) edraw = Except.ok df ∧
      df.y = [0, 1, 2, 3] ∧ df.X = [0, 1, 2, 3] ∧
      df.date = List.replicate 4 today := by
  have hf : (List.range (Int.toNat (5 : ℤ))).filter
      (fun i => decide ((0 : ℚ) ≤ [(-1 : ℚ), 0, 1, 2, 3].getD i 0))
      = [1, 2, 3, 4] := by decide
  refine ⟨_, generate_dataset_rows 0 1 0 5 today
    (fun i => [(-1 : ℚ), 0, 1, 2, 3].getD i 0) edraw (by norm_num), ?_, ?_, ?_⟩
  all_goals
    simp only [DataFrame.ofRows, yAt, zero_mul, one_mul, zero_add, add_zero,
      List.map_map]
    rw [hf]
    rfl

/-- C8: with the random source held fixed, `generate_dataset` is a
deterministic function of its parameters and the random draws: two calls with
identical parameters whose draw streams agree on the first `n` indices produce
identical output tables. -/
theorem C8_generate_dataset_deterministic (alpha beta sigma : ℚ) (n : ℤ)
    (today : String) (Xdraw Xdraw' edraw edraw' : ℕ → ℚ)
    (hX : ∀ i < n.toNat, Xdraw i = Xdraw' i)
    (he : ∀ i < n.toNat, edraw i = edraw' i) :
    generate_dataset alpha beta sigma n today Xdraw edraw
      = generate_dataset alpha beta sigma n today Xdraw' edraw' := by
  by_cases hn : n < 0
  · simp only [generate_dataset, np_full, if_pos hn, Except.bind, bind]
  · have h1 : (List.range n.toNat).map Xdraw = (List.range n.toNat).map Xdraw' :=
      List.map_congr_left (fun i hi => hX i (List.mem_range.mp hi))
    have h2 : (List.range n.toNat).map edraw = (List.range n.toNat).map edraw' :=
      List.map_congr_left (fun i hi => he i (List.mem_range.mp hi))
    simp only [generate_dataset, np_full, np_uniform, np_normal, if_neg hn,
      Except.bind, bind, h1, h2]

/-- C8 witness: at `n = 2` with draw streams differing only from index 2 on. -/
theorem C8_generate_dataset_deterministic_witness :
    (∀ i < (2 : ℤ).toNat, (fun j => (j : ℚ)) i
      = (fun j => if j < 2 then (j : ℚ) else 99) i) ∧
    (∀ i < (2 : ℤ).toNat, (fun _ => (0 : ℚ)) i
      = (fun j => if j < 2 then (0 : ℚ) else 7) i) ∧
    generate_dataset 1 1 1 2 "d" (fun j => (j : ℚ)) (fun _ => (0 : ℚ))
      = generate_dataset 1 1 1 2 "d" (fun j => if j < 2 then (j : ℚ) else 99)
          (fun j => if j < 2 then (0 : ℚ) else 7) :=
  ⟨by decide, by decide,
   C8_generate_dataset_deterministic 1 1 1 2 "d" _ _ _ _ (by decide) (by decide)⟩

/-- C10: for `alpha ≥ 0`, `beta ≥ 0`, `sigma = 0`, `n > 0` and uniform draws in
`[0, 100)`, every `y = alpha + beta*X ≥ 0`, so the filter drops no rows and the
returned table has exactly `n` rows. -/
theorem C10_generate_dataset_full (alpha beta : ℚ) (n : ℤ) (today : String)
    (Xdraw edraw : ℕ → ℚ) (ha : 0 ≤ alpha) (hb : 0 ≤ beta) (hn : 0 < n)
    (hX : ∀ i, 0 ≤ Xdraw i ∧ Xdraw i < 100) :
    ∃ df : DataFrame,
      generate_dataset alpha beta 0 n today Xdraw edraw = Except.ok df ∧
      df.rows = (List.range n.toNat).map
        (fun i => (today, yAt alpha beta 0 Xdraw edraw i, Xdraw i)) ∧
      df.date.length = n.toNat ∧ df.y.length = n.toNat ∧
      df.X.length = n.toNat := by
  have hfilter : (List.range n.toNat).filter
      (fun i => decide (0 ≤ yAt alpha beta 0 Xdraw edraw i))
      = List.range n.toNat := by
    apply List.filter_eq_self.mpr
    intro i _
    apply decide_eq_true
    simp only [yAt, zero_mul, add_zero]
    exact add_nonneg ha (mul_nonneg hb (hX i).1)
  refine ⟨_, generate_dataset_rows alpha beta 0 n today Xdraw edraw hn.le,
    ?_, ?_, ?_, ?_⟩
  · rw [rows_ofRows, hfilter]
  all_goals simp [DataFrame.ofRows, hfilter]

/-- C10 witness: at `alpha = beta = 0`, `n = 1`, all draws `0`. -/
theorem C10_generate_dataset_full_witness :
    (0 : ℚ) ≤ 0 ∧ (0 : ℤ) < 1 ∧
    (∀ i : ℕ, 0 ≤ (fun _ => (0 : ℚ)) i ∧ (fun _ => (0 : ℚ)) i < 100) ∧
    ∃ df : DataFrame,
      generate_dataset 0 0 0 1 "d" (fun _ => 0) (fun _ => 0) = Except.ok df ∧
      df.rows = (List.range (1 : ℤ).toNat).map
        (fun i => ("d", yAt 0 0 0 (fun _ => 0) (fun _ => 0) i,
          (fun _ => (0 : ℚ)) i)) ∧
      df.date.length = (1 : ℤ).toNat ∧ df.y.length = (1 : ℤ).toNat ∧
      df.X.length = (1 : ℤ).toNat :=
  ⟨le_refl 0, by decide, fun i => ⟨le_refl 0, by norm_num⟩,
   C10_generate_dataset_full 0 0 1 "d" (fun _ => 0) (fun _ => 0)
     (le_refl 0) (le_refl 0) (by decide) (fun i => ⟨le_refl 0, by norm_num⟩)⟩

/-- C2: `persist_dataset` catches exactly the storage client error raised
during upload: a `ClientError` is downgraded to a printed warning and the
function returns normally; a successful upload also returns normally; any
other error class raised inside the function propagates to the caller. -/
theorem C2_persist_dataset_catches_only_client_error (dataset : DataFrame)
    (aws_bucket data_date : String)
    (upload : UploadRequest → Except S3Error Unit) :
    ((∃ m, upload (uploadRequestFor data_date aws_bucket)
        = Except.error (S3Error.clientError m)) →
      (persist_dataset dataset aws_bucket data_date upload).raised = none ∧
      (persist_dataset dataset aws_bucket data_date upload).printed
        = ["could not upload dataset to S3 - check AWS credentials"]) ∧
    (upload (uploadRequestFor data_date aws_bucket) = Except.ok () →
      (persist_dataset dataset aws_bucket data_date upload).raised = none) ∧
    (∀ m, upload (uploadRequestFor data_date aws_bucket)
        = Except.error (S3Error.otherError m) →
      (persist_dataset dataset aws_bucket data_date upload).raised
        = some (S3Error.otherError m)) := by
  refine ⟨?_, ?_, ?_⟩
  · rintro ⟨m, hm⟩
    simp [persist_dataset, hm]
  · intro h
    simp [persist_dataset, h]
  · intro m hm
    simp [persist_dataset, hm]

/-- C2 witness: a constant-`ClientError` client makes the run return normally
with the warning printed. -/
theorem C2_persist_dataset_catches_only_client_error_witness :
    (∃ m, (fun _ : UploadRequest =>
        (Except.error (S3Error.clientError "403") : Except S3Error Unit))
        (uploadRequestFor "2021-01-01" "bodywork-ml-ops-project")
      = Except.error (S3Error.clientError m)) ∧
    (persist_dataset ⟨[], [], []⟩ "bodywork-ml-ops-project" "2021-01-01"
        (fun _ => Except.error (S3Error.clientError "403"))).raised = none ∧
    (persist_dataset ⟨[], [], []⟩ "bodywork-ml-ops-project" "2021-01-01"
        (fun _ => Except.error (S3Error.clientError "403"))).printed
      = ["could not upload dataset to S3 - check AWS credentials"] :=
  ⟨⟨"403", rfl⟩,
   (C2_persist_dataset_catches_only_client_error ⟨[], [], []⟩
      "bodywork-ml-ops-project" "2021-01-01"
      (fun _ => (Except.error (S3Error.clientError "403") :
        Except S3Error Unit))).1 ⟨"403", rfl⟩⟩

/-- C5: `persist_dataset` serializes the table to CSV — header line
`date,y,X` first, then one line per row in row order, no index column — under
the local filename `regression-dataset-<date>.csv`, and hands the S3 client an
upload request for that file to the given bucket under remote key
`datasets/regression-dataset-<date>.csv`. -/
theorem persist_dataset_files_and_attempt (dataset : DataFrame)
    (aws_bucket data_date : String)
    (upload : UploadRequest → Except S3Error Unit) :
    (persist_dataset dataset aws_bucket data_date upload).files
      = [(dataset_filename data_date, dataset.to_csv)] ∧
    (persist_dataset dataset aws_bucket data_date upload).uploadAttempt
      = some (uploadRequestFor data_date aws_bucket) := by
  cases h : upload (uploadRequestFor data_date aws_bucket) with
  | ok u => simp [persist_dataset, h]
  | error e => cases e <;> simp [persist_dataset, h]

theorem C5_persist_dataset_serialization (dataset : DataFrame)
    (aws_bucket data_date : String)
    (upload : UploadRequest → Except S3Error Unit) :
    (persist_dataset dataset aws_bucket data_date upload).files
      = [(dataset_filename data_date, dataset.to_csv)] ∧
    dataset.to_csv = "date,y,X" :: dataset.rows.map csvRow ∧
    dataset_filename data_date = "regression-dataset-" ++ data_date ++ ".csv" ∧
    (persist_dataset dataset aws_bucket data_date upload).uploadAttempt
      = some ⟨dataset_filename data_date, aws_bucket,
          "datasets/" ++ dataset_filename data_date⟩ := by
  refine ⟨(persist_dataset_files_and_attempt dataset aws_bucket data_date
    upload).1, rfl, rfl, ?_⟩
  rw [(persist_dataset_files_and_attempt dataset aws_bucket data_date
    upload).2]
  rfl

/-- C6: when the upload fails with a storage-client error, `persist_dataset`
still returns normally (no exception escapes), the warning is printed, and the
local CSV file written before the upload attempt is still on disk. -/
theorem C6_persist_dataset_local_file_survives (dataset : DataFrame)
    (aws_bucket data_date m : String)
    (upload : UploadRequest → Except S3Error Unit)
    (h : upload (uploadRequestFor data_date aws_bucket)
      = Except.error (S3Error.clientError m)) :
    (persist_dataset dataset aws_bucket data_date upload).raised = none ∧
    (persist_dataset dataset aws_bucket data_date upload).files
      = [(dataset_filename data_date, dataset.to_csv)] ∧
    (persist_dataset dataset aws_bucket data_date upload).printed
      = ["could not upload dataset to S3 - check AWS credentials"] := by
  simp [persist_dataset, h]

/-- C6 witness: a client that rejects the bucket (simulated auth failure). -/
theorem C6_persist_dataset_local_file_survives_witness :
    (fun _ : UploadRequest =>
        (Except.error (S3Error.clientError "AccessDenied") :
          Except S3Error Unit))
        (uploadRequestFor "2021-06-30" "some-bucket")
      = Except.error (S3Error.clientError "AccessDenied") ∧
    (persist_dataset ⟨["2021-06-30"], [1], [2]⟩ "some-bucket" "2021-06-30"
        (fun _ => Except.error (S3Error.clientError "AccessDenied"))).raised
      = none ∧
    (persist_dataset ⟨["2021-06-30"], [1], [2]⟩ "some-bucket" "2021-06-30"
        (fun _ => Except.error (S3Error.clientError "AccessDenied"))).files
      = [(dataset_filename "2021-06-30",
          DataFrame.to_csv ⟨["2021-06-30"], [1], [2]⟩)] ∧
    (persist_dataset ⟨["2021-06-30"], [1], [2]⟩ "some-bucket" "2021-06-30"
        (fun _ => Except.error (S3Error.clientError "AccessDenied"))).printed
      = ["could not upload dataset to S3 - check AWS credentials"] :=
  ⟨rfl,
   C6_persist_dataset_local_file_survives ⟨["2021-06-30"], [1], [2]⟩
     "some-bucket" "2021-06-30" "AccessDenied"
     (fun _ => Except.error (S3Error.clientError "AccessDenied")) rfl⟩
